import Mathlib

/-!
Verification of the model-lifecycle behaviour of the Stellara ML pipeline
(`Backend/ml_pipeline/{train,scheduler,model_utils,deploy_api,data_processing}.py`).

The pipeline trains two models (an engagement classifier and an item
recommender), persists each as one joblib file under `MODEL_DIR`, and serves
predictions by reloading those files per request.  The embedding below models:

* the two joblib files as a `Store` with one optional slot per model kind
  (`load_model` returning `None` for a missing file is `Option.none`);
* the sklearn objects (classifier, scaler, fitted `NearestNeighbors`) as
  functions, since the lifecycle code treats them as black boxes;
* the outcome of the sklearn compute inside each training function as an
  `Except` parameter (`TrainEnv`), so that a raising trainer is the `error`
  case and the control flow of `train_all` around it is embedded exactly;
* interleaved `save_model` / `load_model` calls on one joblib file as a
  trace of micro-steps (`FileOp`, `runFileOps`): `joblib.dump(obj, path)`
  writes to the final path in place, with no temporary file and rename, so
  one dump is two steps — opening the path (which truncates it) and
  finishing the write — and a `load_model` between the two reads a
  partially written file.
-/

namespace Stellara

/-- A Python exception, identified by its message. -/
structure PyErr where
  msg : String
deriving DecidableEq, Repr

/-- The processed dataframe as the lifecycle code inspects it: the list of
column names (used to pick feature and category columns) and the values of
the `item_id` column (used by the recommender grouping). -/
structure DataFrame where
  columns : List String
  itemIds : List String
deriving DecidableEq, Repr

/-- The engagement artifact: the dict saved by `train_engagement`
(`\x7b"model": clf, "scaler": scaler, "features": features\x7d`,
train.py line 28).  `model` stands for `clf.predict_proba(.)[0, 1]` and
`scaler` for `scaler.transform`. -/
structure EngagementArtifact where
  model : List Int → Int
  scaler : List Int → List Int
  features : List String

/-- The recommender artifact: the dict saved by `train_recommender`
(`\x7b"nn": nn, "items_index": items.index.tolist(), "cat_cols": cat_cols\x7d`,
train.py line 41).  The fitted `NearestNeighbors` is modelled as a map from
a row index to the row indices returned by `kneighbors`. -/
structure RecommenderArtifact where
  nn : Nat → List Nat
  items_index : List String
  cat_cols : List String

/-- Keys of the dict that `train_engagement` passes to `save_model`
(train.py line 28). -/
def engagement_artifact_keys : List String := ["model", "scaler", "features"]

/-- Keys of the dict that `train_recommender` passes to `save_model`
(train.py line 41). -/
def recommender_artifact_keys : List String := ["nn", "items_index", "cat_cols"]

/-- The two joblib files under `MODEL_DIR`: the artifact slot per model kind.
`none` models an absent file, for which `load_model` returns `None`
(model_utils.py lines 14-17). -/
structure Store where
  engagement : Option EngagementArtifact
  recommender : Option RecommenderArtifact

/-- The store before any training has published anything: both files absent. -/
def initial_store : Store := ⟨none, none⟩

/-- Result of the fitted sklearn objects built inside `train_engagement`
(train.py lines 20-26): the classifier and the fitted scaler. -/
structure EngFit where
  clf : List Int → Int
  scaler : List Int → List Int

/-- Outcomes of the external sklearn compute steps of one training run:
`engFit` is everything `train_engagement` does between the column selection
and `save_model` (split, scale, fit, score); `recFit` is the
`NearestNeighbors` construction and fit in `train_recommender`.  An `error`
value is the exception that step raised. -/
structure TrainEnv where
  engFit : Except PyErr EngFit
  recFit : Except PyErr (Nat → List Nat)

/-- Columns excluded from the engagement feature set (train.py line 17). -/
def excluded_columns : List String := ["user_id", "item_id", "timestamp", "engaged"]

/-- `features = [c for c in df.columns if c not in (...)]` (train.py line 17). -/
def feature_columns (df : DataFrame) : List String :=
  df.columns.filter (fun c => !excluded_columns.contains c)

/-- `cat_cols = [c for c in df.columns if c.startswith("cat_")]`
(train.py line 33). -/
def cat_columns (df : DataFrame) : List String :=
  df.columns.filter (fun c => c.startsWith "cat_")

/-- The index of the per-item groupby (train.py line 34): the distinct
`item_id` values, in sorted order as pandas `groupby` produces them. -/
def items_index_of (df : DataFrame) : List String :=
  df.itemIds.dedup.mergeSort (fun a b => a ≤ b)

/-- `train_engagement` (train.py lines 16-28): select the feature columns,
run the sklearn fit, and on success `save_model` the artifact dict, i.e.
overwrite the engagement slot.  A raise anywhere before `save_model`
propagates and leaves the store untouched (no store is produced). -/
def train_engagement (env : TrainEnv) (df : DataFrame) (st : Store) :
    Except PyErr Store :=
  match env.engFit with
  | .error e => .error e
  | .ok fit =>
      let artifact : EngagementArtifact :=
        { model := fit.clf, scaler := fit.scaler, features := feature_columns df }
      .ok { st with engagement := some artifact }

/-- `train_recommender` (train.py lines 31-42): group by item; when fewer
than 2 distinct items exist, print and return without saving (the skip);
otherwise fit `NearestNeighbors` and `save_model` the artifact dict. -/
def train_recommender (env : TrainEnv) (df : DataFrame) (st : Store) :
    Except PyErr Store :=
  let items := items_index_of df
  if items.length < 2 then
    .ok st
  else
    match env.recFit with
    | .error e => .error e
    | .ok nnFit =>
        let artifact : RecommenderArtifact :=
          { nn := nnFit, items_index := items, cat_cols := cat_columns df }
        .ok { st with recommender := some artifact }

/-- How one `train_all` run ended when it returned normally: both trainings
ran to completion, or an exception from a training step was caught by the
`except` clause and printed (train.py lines 53-54). -/
inductive RunResult
  | completed
  | trainingFailed (e : PyErr)
deriving DecidableEq, Repr

/-- `train_all` (train.py lines 45-54).  `processed` is the outcome of
`get_processed(input_path)`, which runs before the `try` block: if it
raises, the exception escapes `train_all`.  Inside the `try`,
`train_engagement` then `train_recommender` run in sequence and any
exception from them is caught. -/
def train_all (env : TrainEnv) (processed : Except PyErr DataFrame)
    (st : Store) : Except PyErr (Store × RunResult) :=
  match processed with
  | .error e => .error e
  | .ok df =>
    match train_engagement env df st with
    | .error e => .ok (st, .trainingFailed e)
    | .ok st1 =>
      match train_recommender env df st1 with
      | .error e => .ok (st1, .trainingFailed e)
      | .ok st2 => .ok (st2, .completed)

/-! ### The joblib file of one model kind under interleaved dump and load

`save_model` (model_utils.py lines 9-11) is a bare `joblib.dump(obj, path)`
to the final path: an in-place, truncating file write with no temporary
file and rename.  `load_model` (lines 14-17) runs in the request threads
concurrently with the training thread, so one dump is modelled as two
micro-steps — opening the path, which truncates the file, and completing
the write — and a load can land between them. -/

/-- What the joblib file of one model kind holds at some point of a trace:
it does not exist yet, it is mid-write (truncated or partially written by a
dump still in flight), or it holds the complete serialized artifact of a
finished dump. -/
inductive FileState (α : Type)
  | absent
  | midWrite
  | complete (a : α)
deriving DecidableEq, Repr

/-- One micro-step of an interleaving on the joblib file of one model kind:
a dump opening the path (truncating whatever was there), a dump finishing
with the complete artifact it was called with, or a `load_model` read by
the serving layer. -/
inductive FileOp (α : Type)
  | dumpBegin
  | dumpEnd (a : α)
  | load
deriving DecidableEq, Repr

/-- What one `load_model` call observes: the file does not exist, so it
returns the `None` sentinel; the file is partially written, so `joblib.load`
reads a torn object (an error or garbage, not any published artifact); or
the file holds the complete artifact of a finished dump. -/
inductive Observation (α : Type)
  | absent
  | torn
  | artifact (a : α)
deriving DecidableEq, Repr

/-- The value a `load_model` call returns from a given file state. -/
def observe_file {α : Type} : FileState α → Observation α
  | .absent => .absent
  | .midWrite => .torn
  | .complete a => .artifact a

/-- Run a sequence of interleaved micro-steps against the file, starting
from state `s`; the result lists what each load observed, in order. -/
def runFileOps {α : Type} : List (FileOp α) → FileState α → List (Observation α)
  | [], _ => []
  | .dumpBegin :: ops, _ => runFileOps ops .midWrite
  | .dumpEnd a :: ops, _ => runFileOps ops (.complete a)
  | .load :: ops, s => observe_file s :: runFileOps ops s

/-! ### The serving layer (deploy_api.py) -/

/-- A FastAPI `HTTPException`, as raised by the two endpoints. -/
structure HTTPException where
  status_code : Nat
  detail : String
deriving DecidableEq, Repr

/-- The pydantic `SessionPayload` (deploy_api.py lines 14-19): the four
declared fields; extra keys of an inbound request are not retained. -/
structure SessionPayload where
  session_duration : Int
  pages_viewed : Int
  actions : Int
  hour : Int
deriving DecidableEq, Repr

/-- `payload.__dict__` (deploy_api.py line 42): the field dict of the
pydantic model, as an association list. -/
def payload_dict (p : SessionPayload) : List (String × Int) :=
  [("session_duration", p.session_duration), ("pages_viewed", p.pages_viewed),
   ("actions", p.actions), ("hour", p.hour)]

/-- The pydantic `RecommendRequest` (deploy_api.py lines 22-24); both fields
default to `None`. -/
structure RecommendRequest where
  user_id : Option String
  item_id : Option String
deriving DecidableEq, Repr

/-- `load_engagement` (deploy_api.py lines 27-29): `load_model` on the
engagement joblib path. -/
def load_engagement (st : Store) : Option EngagementArtifact :=
  st.engagement

/-- `load_recommender` (deploy_api.py lines 32-33): `load_model` on the
recommender joblib path. -/
def load_recommender (st : Store) : Option RecommenderArtifact :=
  st.recommender

/-- `row = [payload.__dict__.get(f, 0) for f in features]`
(deploy_api.py line 42): one value per stored feature name, in the order of
the stored schema, with 0 for a name the payload dict does not hold. -/
def build_row (features : List String) (p : SessionPayload) : List Int :=
  features.map (fun f => ((payload_dict p).lookup f).getD 0)

/-- The `/predict_engagement` response body. -/
structure PredictResponse where
  engagement_probability : Int
deriving DecidableEq, Repr

/-- The `predict` endpoint (deploy_api.py lines 36-45): reload the
engagement artifact; `None` is falsy, so an absent model raises
`HTTPException(503, "Engagement model not available")`; otherwise build the
row from the stored feature schema, scale it and return the predicted
probability. -/
def predict (st : Store) (payload : SessionPayload) :
    Except HTTPException PredictResponse :=
  match load_engagement st with
  | none => .error ⟨503, "Engagement model not available"⟩
  | some m =>
      let row := build_row m.features payload
      let Xs := m.scaler row
      .ok ⟨m.model Xs⟩

/-- The `recommend` endpoint (deploy_api.py lines 48-65): reload the
recommender artifact; absent gives a 503; with a truthy `item_id` that is in
the stored index, return the items at the indices `kneighbors` yields for
its row; otherwise fall back to the first 5 items of the index
(`items[:5]`).  In Python both `None` and `""` are falsy, hence the
emptiness test. -/
def recommend (st : Store) (req : RecommendRequest) :
    Except HTTPException (List String) :=
  match load_recommender st with
  | none => .error ⟨503, "Recommender not available"⟩
  | some rec =>
      let items := rec.items_index
      match req.item_id with
      | some iid =>
          if iid != "" && items.contains iid then
            let idx := items.indexOf iid
            .ok ((rec.nn idx).map (fun i => items.getD i ""))
          else
            .ok (items.take 5)
      | none => .ok (items.take 5)

/-! ### The scheduler (scheduler.py) -/

/-- The observable steps `start_scheduler` performs, in order: the immediate
run of `func` (succeeded, or failed with a caught and printed exception),
`scheduler.add_job(func, interval, hours=hours, id="retrain_job")`, and
`scheduler.start()`. -/
inductive SchedEvent
  | initial_run_ok
  | initial_run_failed (e : PyErr)
  | job_added (id : String) (hours : Nat)
  | sched_started
deriving DecidableEq, Repr

/-- The `BackgroundScheduler` after `start_scheduler` returns: the interval
jobs registered on it, keyed by id, and whether it was started. -/
structure SchedulerState where
  jobs : List (String × Nat)
  running : Bool
deriving DecidableEq, Repr

/-- `start_scheduler(func, hours)` (scheduler.py lines 5-16), with the
store threaded through the retrain callable: run `func` once immediately,
catching any exception (the store keeps its prior value then); afterwards —
in either case — add the interval job and start the scheduler.  Returns the
store after the immediate run, the ordered events, and the scheduler. -/
def start_scheduler (func : Store → Except PyErr Store) (hours : Nat)
    (st : Store) : Store × List SchedEvent × SchedulerState :=
  match func st with
  | .ok s =>
      (s, [.initial_run_ok, .job_added "retrain_job" hours, .sched_started],
        { jobs := [("retrain_job", hours)], running := true })
  | .error e =>
      (st, [.initial_run_failed e, .job_added "retrain_job" hours, .sched_started],
        { jobs := [("retrain_job", hours)], running := true })

/-! ### Raw data loading (data_processing.py) -/

/-- One synthetic behavioural record built by `generate_synthetic`
(data_processing.py lines 17-33); the timestamp is kept as its
minutes-before-now offset. -/
structure SynthRow where
  user_id : String
  session_duration : Nat
  pages_viewed : Nat
  actions : Nat
  item_id : String
  item_category : String
  minutes_ago : Nat
deriving DecidableEq, Repr

/-- Deterministic model of the draws from `np.random.default_rng(seed)`:
the numpy bit generator is an external collaborator, so each draw is
modelled as a pure function of the seed and the draw index — all the
lifecycle behaviour depends on is that the stream is a function of the
fixed seed. -/
def rng_draw (seed i : Nat) : Nat :=
  (2654435761 * (seed + 1) + 40503 * (i + 1) * (i + 1)) % 4294967296

/-- The categories sampled for `item_category` (data_processing.py line 16). -/
def synth_categories : List String := ["crypto", "finance", "ml", "web3", "misc"]

/-- The `i`-th row appended by the loop of `generate_synthetic`
(data_processing.py lines 17-33), with each numpy draw modelled through
`rng_draw` and value ranges following the source expressions. -/
def synthetic_row (seed i : Nat) : SynthRow :=
  { user_id := "user_" ++ toString (1 + rng_draw seed (7 * i) % 199)
    pages_viewed := max 1 (rng_draw seed (7 * i + 1) % 12)
    session_duration := rng_draw seed (7 * i + 2) % 1200
    actions := rng_draw seed (7 * i + 3) % 10
    item_id := "item_" ++ toString (1 + rng_draw seed (7 * i + 4) % 199)
    item_category := synth_categories.getD (rng_draw seed (7 * i + 5) % 5) "misc"
    minutes_ago := rng_draw seed (7 * i + 6) % (60 * 24 * 30) }

/-- The file system as `load_raw` sees it: a map from a csv path to the
dataset stored there; a path with no entry does not exist. -/
structure FileSystem where
  files : List (String × List SynthRow)
deriving DecidableEq, Repr

/-- `generate_synthetic(path, n=1000)` (data_processing.py lines 11-36):
build `n` rows from `default_rng(42)`, write them as csv to `path`, and
return the dataframe. -/
def generate_synthetic (fs : FileSystem) (path : String) (n : Nat := 1000) :
    FileSystem × List SynthRow :=
  let df := (List.range n).map (synthetic_row 42)
  (⟨(path, df) :: fs.files⟩, df)

/-- The default input path of `load_raw` (data_processing.py line 41). -/
def default_data_path : String := "Backend/ml_pipeline/data/user_behavior.csv"

/-- `load_raw(path=None)` (data_processing.py lines 39-45): default the
path; when the file exists read it back, otherwise print a notice and
return `generate_synthetic(path)`, which also writes the file. -/
def load_raw (fs : FileSystem) (pathArg : Option String) :
    FileSystem × List SynthRow :=
  let path := pathArg.getD default_data_path
  match fs.files.lookup path with
  | some df => (fs, df)
  | none => generate_synthetic fs path

/-! ### Concrete fixtures used by the closed witness statements -/

/-- A concrete exception. -/
def cErr : PyErr := ⟨"boom"⟩

/-- A concrete fitted classifier and scaler. -/
def cFit : EngFit := ⟨fun _ => 0, fun r => r⟩

/-- Trainer outcomes where both sklearn computations succeed. -/
def cEnvOk : TrainEnv := ⟨.ok cFit, .ok (fun _ => [0])⟩

/-- Trainer outcomes where both sklearn computations raise. -/
def cEnvFail : TrainEnv := ⟨.error cErr, .error cErr⟩

/-- A processed dataframe with two distinct items and one category column. -/
def cDf : DataFrame :=
  ⟨["user_id", "item_id", "timestamp", "engaged", "session_duration", "cat_crypto"],
    ["item_1", "item_2"]⟩

/-- A processed dataframe whose item universe has a single distinct item. -/
def cDfOne : DataFrame := ⟨["user_id", "item_id"], ["item_1", "item_1"]⟩

/-- A concrete published engagement artifact. -/
def cEng : EngagementArtifact := ⟨fun _ => 0, fun r => r, ["session_duration", "cat_crypto"]⟩

/-- A concrete published recommender artifact over three items. -/
def cRec : RecommenderArtifact := ⟨fun _ => [], ["item_1", "item_2", "item_3"], []⟩

/-- A store with both artifacts published. -/
def cStore : Store := ⟨some cEng, some cRec⟩

/-- A concrete prediction request. -/
def cPayload : SessionPayload := ⟨100, 2, 3, 4⟩

/-- A concrete interleaving on one joblib file: a completed dump of 3, then
a completed dump of 7, then a read. -/
def cFileOps : List (FileOp Nat) :=
  [FileOp.dumpBegin, FileOp.dumpEnd 3, FileOp.dumpBegin, FileOp.dumpEnd 7, FileOp.load]

/-! ### Helper lemmas on the training run -/

/-- When the engagement fit raises, the whole run is caught at the `except`
of `train_all` and the store passed in is returned untouched. -/
theorem train_all_of_engFit_error (env : TrainEnv) (df : DataFrame) (st : Store)
    (e : PyErr) (he : env.engFit = Except.error e) :
    train_all env (Except.ok df) st = Except.ok (st, RunResult.trainingFailed e) := by
  simp [train_all, train_engagement, he]

/-- When the recommender fit raises, any normal return of `train_all` keeps
the recommender slot exactly as it was before the run. -/
theorem train_all_rec_slot_preserved (env : TrainEnv) (df : DataFrame)
    (st st' : Store) (r : RunResult) (e : PyErr)
    (he : env.recFit = Except.error e)
    (h : train_all env (Except.ok df) st = Except.ok (st', r)) :
    st'.recommender = st.recommender := by
  cases hEng : env.engFit with
  | error e1 =>
      rw [train_all_of_engFit_error env df st e1 hEng] at h
      simp only [Except.ok.injEq, Prod.mk.injEq] at h
      rw [← h.1]
  | ok fit =>
      by_cases hlen : (items_index_of df).length < 2 <;>
        · simp only [train_all, train_engagement, hEng, train_recommender, he,
            hlen, if_true, if_false, Except.ok.injEq, Prod.mk.injEq,
            reduceIte] at h
          rw [← h.1]

/-! ### C1 -/

/-- C1: serve-stale-on-failure.  For a run of `train_all` that returns
normally, if the trainer for a model kind raised before producing its
artifact, the slot of that kind after the run equals the slot before it:
when the engagement fit raised the whole store is untouched (nothing later
in the run executes), and when the recommender fit raised the recommender
slot is untouched. -/
theorem serve_stale_on_failure (env : TrainEnv) (df : DataFrame)
    (st st' : Store) (r : RunResult)
    (h : train_all env (Except.ok df) st = Except.ok (st', r)) :
    ((∃ e, env.engFit = Except.error e) → st' = st) ∧
    ((∃ e, env.recFit = Except.error e) → st'.recommender = st.recommender) := by
  constructor
  · rintro ⟨e, he⟩
    rw [train_all_of_engFit_error env df st e he] at h
    simp only [Except.ok.injEq, Prod.mk.injEq] at h
    rw [← h.1]
  · rintro ⟨e, he⟩
    exact train_all_rec_slot_preserved env df st st' r e he h

/-- Witness for C1: a run in which both fits raise, starting from the empty
store, returns normally and preserves both slots. -/
theorem serve_stale_on_failure_witness :
    ((∃ e, cEnvFail.engFit = Except.error e) → initial_store = initial_store) ∧
    ((∃ e, cEnvFail.recFit = Except.error e) →
      initial_store.recommender = initial_store.recommender) :=
  serve_stale_on_failure cEnvFail cDf initial_store initial_store
    (RunResult.trainingFailed cErr) rfl

/-! ### C2 -/

/-- C2 counterexample: a `load_model` read that lands between the opening
and the completion of a single `joblib.dump` observes a partially written
file — neither the absent sentinel nor the complete artifact of any
completed publish.  The bare in-place dump of `save_model` permits exactly
this interleaving. -/
theorem concurrent_read_observes_partial_write :
    runFileOps [FileOp.dumpBegin, FileOp.load, FileOp.dumpEnd (7 : Nat)]
        FileState.absent = [Observation.torn] ∧
    ∀ a : Nat, Observation.torn ≠ Observation.artifact a := by
  exact ⟨rfl, fun a h => Observation.noConfusion h⟩

/-- Every read of the file observes what the starting state held, a torn
mid-write file, or the complete artifact of a dump completed in the trace. -/
theorem mem_runFileOps {α : Type} (ops : List (FileOp α)) (s : FileState α)
    (o : Observation α) (h : o ∈ runFileOps ops s) :
    o = observe_file s ∨ o = Observation.torn ∨
      ∃ a, FileOp.dumpEnd a ∈ ops ∧ o = Observation.artifact a := by
  induction ops generalizing s with
  | nil => simp [runFileOps] at h
  | cons op rest ih =>
      cases op with
      | dumpBegin =>
          simp only [runFileOps] at h
          rcases ih FileState.midWrite h with h1 | h1 | ⟨b, hb, ho⟩
          · exact Or.inr (Or.inl h1)
          · exact Or.inr (Or.inl h1)
          · exact Or.inr (Or.inr ⟨b, by simp [hb], ho⟩)
      | dumpEnd a =>
          simp only [runFileOps] at h
          rcases ih (FileState.complete a) h with h1 | h1 | ⟨b, hb, ho⟩
          · exact Or.inr (Or.inr ⟨a, by simp, h1⟩)
          · exact Or.inr (Or.inl h1)
          · exact Or.inr (Or.inr ⟨b, by simp [hb], ho⟩)
      | load =>
          simp only [runFileOps, List.mem_cons] at h
          rcases h with h | h
          · exact Or.inl h
          · rcases ih s h with h1 | h1 | ⟨b, hb, ho⟩
            · exact Or.inl h1
            · exact Or.inr (Or.inl h1)
            · exact Or.inr (Or.inr ⟨b, by simp [hb], ho⟩)

/-- C2 (amended): over every interleaving of dump micro-steps and reads on
the joblib file of one model kind, starting from an absent file, each read
observes the absent sentinel, or the complete self-consistent artifact
passed to a single completed dump of the trace — never a mixture of two
publishes' fields, since a complete file always comes from exactly one
`dumpEnd` — or, when the read overlaps an in-flight dump (possible because
`save_model` writes in place with no temporary file and rename), a
partially written file. -/
theorem get_absent_torn_or_single_publish {α : Type} (ops : List (FileOp α))
    (o : Observation α) (h : o ∈ runFileOps ops FileState.absent) :
    o = Observation.absent ∨ o = Observation.torn ∨
      ∃ a, FileOp.dumpEnd a ∈ ops ∧ o = Observation.artifact a :=
  mem_runFileOps ops FileState.absent o h

/-- Witness for C2: in a trace of two completed dumps followed by a read,
the read observes exactly the artifact of the second completed dump. -/
theorem get_absent_torn_or_single_publish_witness :
    Observation.artifact 7 = Observation.absent ∨
    Observation.artifact 7 = Observation.torn ∨
      ∃ a, FileOp.dumpEnd a ∈ cFileOps ∧
        Observation.artifact 7 = Observation.artifact a :=
  get_absent_torn_or_single_publish cFileOps (Observation.artifact 7) (by decide)

/-- Once the processed dataframe is in hand, `train_all` never returns an
exception: the `try` block around both training calls catches everything. -/
theorem train_all_with_data_never_errors (env : TrainEnv) (df : DataFrame)
    (st : Store) (e : PyErr) :
    train_all env (Except.ok df) st ≠ Except.error e := by
  intro h
  cases hEng : env.engFit with
  | error e1 =>
      rw [train_all_of_engFit_error env df st e1 hEng] at h
      exact Except.noConfusion h
  | ok fit =>
      by_cases hlen : (items_index_of df).length < 2
      · simp [train_all, train_engagement, hEng, train_recommender, hlen] at h
      · cases hRec : env.recFit with
        | error e2 =>
            simp [train_all, train_engagement, hEng, train_recommender, hlen, hRec] at h
        | ok nnFit =>
            simp [train_all, train_engagement, hEng, train_recommender, hlen, hRec] at h

/-! ### C3 -/

/-- C3 counterexample: `get_processed` runs before the `try` block of
`train_all` (train.py line 47), so a data-loading exception escapes
`train_all` to its caller instead of being caught inside it. -/
theorem data_loading_error_escapes :
    train_all cEnvOk (Except.error cErr) initial_store = Except.error cErr := rfl

/-- C3 (amended): exceptions raised by the trainer steps are caught inside
`train_all`, so whenever data loading succeeds the run returns normally for
every trainer outcome; a data-loading exception, by contrast, propagates
out of `train_all` and is only caught one level up, by the wrapper around
the immediate run in `start_scheduler`, which still installs the schedule
and keeps the prior store. -/
theorem trainer_errors_contained (env : TrainEnv) (df : DataFrame) (st : Store) :
    (∃ out, train_all env (Except.ok df) st = Except.ok out) ∧
    (∀ e, start_scheduler
        (fun s => (train_all env (Except.error e) s).map Prod.fst) 24 st =
      (st, [SchedEvent.initial_run_failed e, SchedEvent.job_added "retrain_job" 24,
        SchedEvent.sched_started], ⟨[("retrain_job", 24)], true⟩)) := by
  constructor
  · cases h : train_all env (Except.ok df) st with
    | ok out => exact ⟨out, rfl⟩
    | error e => exact absurd h (train_all_with_data_never_errors env df st e)
  · intro e
    rfl

/-! ### C4 -/

/-- C4 counterexample: the dict saved for each kind has no "generation"
key — the published artifacts carry no generation number at all. -/
theorem published_artifacts_lack_generation :
    "generation" ∉ engagement_artifact_keys ∧
    "generation" ∉ recommender_artifact_keys := by decide

/-- C4 (amended): published artifacts carry no generation number (the saved
dicts have exactly the keys model/scaler/features and
nn/items_index/cat_cols); a successful publish simply overwrites the single
per-kind slot with the complete new artifact, and a failed run returns the
store it was given, so it never changes any slot. -/
theorem publish_overwrites_slot_without_generation
    (envOk envBad : TrainEnv) (fit : EngFit) (e : PyErr) (df : DataFrame)
    (st st' : Store) (r : RunResult)
    (hok : envOk.engFit = Except.ok fit)
    (hbad : envBad.engFit = Except.error e)
    (hrun : train_all envBad (Except.ok df) st = Except.ok (st', r)) :
    "generation" ∉ engagement_artifact_keys ∧
    "generation" ∉ recommender_artifact_keys ∧
    train_engagement envOk df st =
      Except.ok { st with engagement := some ⟨fit.clf, fit.scaler, feature_columns df⟩ } ∧
    st' = st := by
  refine ⟨by decide, by decide, ?_, ?_⟩
  · simp [train_engagement, hok]
  · rw [train_all_of_engFit_error envBad df st e hbad] at hrun
    simp only [Except.ok.injEq, Prod.mk.injEq] at hrun
    rw [← hrun.1]

/-- Witness for C4: concrete successful and failing runs from the empty
store. -/
theorem publish_overwrites_slot_without_generation_witness :
    "generation" ∉ engagement_artifact_keys ∧
    "generation" ∉ recommender_artifact_keys ∧
    train_engagement cEnvOk cDf initial_store =
      Except.ok { initial_store with
        engagement := some ⟨cFit.clf, cFit.scaler, feature_columns cDf⟩ } ∧
    initial_store = initial_store :=
  publish_overwrites_slot_without_generation cEnvOk cEnvFail cFit cErr cDf
    initial_store initial_store (RunResult.trainingFailed cErr) rfl rfl rfl

/-! ### C5 -/

/-- C5: a prediction request issued while no engagement artifact has ever
been published (the joblib file is absent, so `load_model` returns the
falsy `None`) fails with the explicit 503 model-unavailable condition
rather than crashing or producing an undefined result. -/
theorem predict_unavailable_before_publish (st : Store) (p : SessionPayload)
    (h : st.engagement = none) :
    predict st p = Except.error ⟨503, "Engagement model not available"⟩ := by
  simp [predict, load_engagement, h]

/-- Witness for C5: the empty store answers a concrete request with the
503 condition. -/
theorem predict_unavailable_before_publish_witness :
    predict initial_store cPayload =
      Except.error ⟨503, "Engagement model not available"⟩ :=
  predict_unavailable_before_publish initial_store cPayload rfl

/-! ### C6 -/

/-- C6: on a dataset whose item universe has fewer than 2 distinct items,
`train_recommender` returns normally without publishing: no exception, the
store — and with it any previously published recommender artifact — is
exactly the one passed in. -/
theorem recommender_skips_few_items (env : TrainEnv) (df : DataFrame)
    (st : Store) (h : df.itemIds.dedup.length < 2) :
    train_recommender env df st = Except.ok st := by
  have hlen : (items_index_of df).length < 2 := by
    simpa [items_index_of] using h
  simp [train_recommender, hlen]

/-- Witness for C6: a dataset with a single distinct item leaves a store
with a published recommender untouched. -/
theorem recommender_skips_few_items_witness :
    train_recommender cEnvOk cDfOne cStore = Except.ok cStore :=
  recommender_skips_few_items cEnvOk cDfOne cStore (by decide)

/-! ### C7 -/

/-- C7: with a recommender artifact published, a request whose `item_id` is
not supplied (or Python-falsy) or not present in the stored item index does
not error: it returns the deterministic default list `items[:5]`, whose
length is exactly 5, or the full catalog size if the catalog holds fewer
than 5 items. -/
theorem recommend_fallback_default (st : Store) (rec : RecommenderArtifact)
    (req : RecommendRequest)
    (hrec : st.recommender = some rec)
    (hmiss : req.item_id = none ∨ req.item_id = some "" ∨
      ∃ iid, req.item_id = some iid ∧ rec.items_index.contains iid = false) :
    recommend st req = Except.ok (rec.items_index.take 5) ∧
    (rec.items_index.take 5).length = min 5 rec.items_index.length := by
  refine ⟨?_, by simp⟩
  rcases hmiss with h | h | ⟨iid, hi, hc⟩
  · simp [recommend, load_recommender, hrec, h]
  · simp [recommend, load_recommender, hrec, h]
  · have hmem : iid ∉ rec.items_index := by simpa using hc
    simp [recommend, load_recommender, hrec, hi, hmem]

/-- Witness for C7: a request for an unknown item against a published
three-item catalog returns the whole catalog, of length `min 5 3`. -/
theorem recommend_fallback_default_witness :
    recommend cStore ⟨none, some "item_99"⟩ =
      Except.ok (cRec.items_index.take 5) ∧
    (cRec.items_index.take 5).length = min 5 cRec.items_index.length :=
  recommend_fallback_default cStore cRec ⟨none, some "item_99"⟩ rfl
    (Or.inr (Or.inr ⟨"item_99", rfl, by decide⟩))

/-! ### C8 -/

/-- A name that is none of the four payload fields is not found in the
payload dict. -/
theorem payload_dict_lookup_none (p : SessionPayload) (f : String)
    (hf : f ∉ ["session_duration", "pages_viewed", "actions", "hour"]) :
    (payload_dict p).lookup f = none := by
  simp only [List.mem_cons, List.not_mem_nil, or_false, not_or] at hf
  obtain ⟨h1, h2, h3, h4⟩ := hf
  simp [payload_dict, List.lookup,
    beq_eq_false_iff_ne.mpr h1, beq_eq_false_iff_ne.mpr h2,
    beq_eq_false_iff_ne.mpr h3, beq_eq_false_iff_ne.mpr h4]

/-- C8: with an engagement artifact published, a prediction request is
answered (not rejected) from the row built against the stored feature
schema: the row has one entry per stored feature, the entry at position `i`
is determined by the schema name at position `i` (schema order), and every
schema name missing from the payload dict contributes the default 0. -/
theorem missing_features_default_zero (st : Store) (m : EngagementArtifact)
    (p : SessionPayload) (hm : st.engagement = some m) :
    predict st p = Except.ok ⟨m.model (m.scaler (build_row m.features p))⟩ ∧
    (build_row m.features p).length = m.features.length ∧
    (∀ i : Nat, (build_row m.features p)[i]? =
      (m.features[i]?).map (fun f => ((payload_dict p).lookup f).getD 0)) ∧
    (∀ i : Nat, ∀ f : String, m.features[i]? = some f →
      f ∉ ["session_duration", "pages_viewed", "actions", "hour"] →
      (build_row m.features p)[i]? = some 0) := by
  refine ⟨?_, ?_, ?_, ?_⟩
  · simp [predict, load_engagement, hm]
  · simp [build_row]
  · intro i
    simp [build_row]
  · intro i f hf hnot
    simp [build_row, hf, payload_dict_lookup_none p f hnot]

/-- Witness for C8: a concrete artifact whose schema holds one payload
field and one category column; the category column, absent from the
payload, contributes 0 at its schema position. -/
theorem missing_features_default_zero_witness :
    predict cStore cPayload =
      Except.ok ⟨cEng.model (cEng.scaler (build_row cEng.features cPayload))⟩ ∧
    (build_row cEng.features cPayload).length = cEng.features.length ∧
    (∀ i : Nat, (build_row cEng.features cPayload)[i]? =
      (cEng.features[i]?).map (fun f => ((payload_dict cPayload).lookup f).getD 0)) ∧
    (∀ i : Nat, ∀ f : String, cEng.features[i]? = some f →
      f ∉ ["session_duration", "pages_viewed", "actions", "hour"] →
      (build_row cEng.features cPayload)[i]? = some 0) :=
  missing_features_default_zero cStore cEng cPayload rfl

/-! ### C9 -/

/-- C9: `start_scheduler` first performs the immediate run, then — whatever
that run did — registers the `retrain_job` interval job and starts the
scheduler: the returned scheduler always holds the job at the given
interval and is running, the event order places the immediate run before
the registration, and a failed immediate run only keeps the prior store. -/
theorem scheduler_runs_immediately_then_schedules
    (func : Store → Except PyErr Store) (hours : Nat) (st : Store) :
    (start_scheduler func hours st).2.2 = ⟨[("retrain_job", hours)], true⟩ ∧
    ((∃ s, func st = Except.ok s ∧
        (start_scheduler func hours st).2.1 =
          [SchedEvent.initial_run_ok, SchedEvent.job_added "retrain_job" hours,
            SchedEvent.sched_started] ∧
        (start_scheduler func hours st).1 = s) ∨
      (∃ e, func st = Except.error e ∧
        (start_scheduler func hours st).2.1 =
          [SchedEvent.initial_run_failed e, SchedEvent.job_added "retrain_job" hours,
            SchedEvent.sched_started] ∧
        (start_scheduler func hours st).1 = st)) := by
  cases hf : func st with
  | ok s => exact ⟨by simp [start_scheduler, hf], Or.inl ⟨s, rfl, by simp [start_scheduler, hf],
      by simp [start_scheduler, hf]⟩⟩
  | error e => exact ⟨by simp [start_scheduler, hf], Or.inr ⟨e, rfl, by simp [start_scheduler, hf],
      by simp [start_scheduler, hf]⟩⟩

/-! ### C10 -/

/-- C10: when the input path does not exist, `load_raw` does not fail: it
returns the synthetic dataset of exactly 1000 rows generated from the
fixed seed 42, after writing it to that path (the path now holds exactly
the returned dataset). -/
theorem load_raw_generates_when_missing (fs : FileSystem) (path : String)
    (h : fs.files.lookup path = none) :
    load_raw fs (some path) =
      (⟨(path, (List.range 1000).map (synthetic_row 42)) :: fs.files⟩,
        (List.range 1000).map (synthetic_row 42)) ∧
    (load_raw fs (some path)).2.length = 1000 ∧
    (load_raw fs (some path)).1.files.lookup path =
      some ((load_raw fs (some path)).2) := by
  have hl : load_raw fs (some path) =
      (⟨(path, (List.range 1000).map (synthetic_row 42)) :: fs.files⟩,
        (List.range 1000).map (synthetic_row 42)) := by
    simp [load_raw, h, generate_synthetic]
  refine ⟨hl, ?_, ?_⟩
  · rw [hl]
    simp
  · rw [hl]
    simp [List.lookup]

/-- Witness for C10: loading from an empty file system generates, writes
and returns the 1000-row synthetic dataset. -/
theorem load_raw_generates_when_missing_witness :
    load_raw ⟨[]⟩ (some default_data_path) =
      (⟨[(default_data_path, (List.range 1000).map (synthetic_row 42))]⟩,
        (List.range 1000).map (synthetic_row 42)) ∧
    (load_raw ⟨[]⟩ (some default_data_path)).2.length = 1000 ∧
    (load_raw ⟨[]⟩ (some default_data_path)).1.files.lookup default_data_path =
      some ((load_raw ⟨[]⟩ (some default_data_path)).2) :=
  load_raw_generates_when_missing ⟨[]⟩ default_data_path rfl

end Stellara
